import Mathlib

/-!
ydb-go-sdk: connection health predicate, next-options, sql retry adapters, child registry

A shallow embedding of

* `internal/balancer/balancer.go` : `IsOkConnection`, `MakeNextOptions`, `NextOptions.Discovery`,
  `WithAcceptBanned`, `WithOnBadState`;
* `retry/sql.go` : `Do`, `DoTx` and their attempt closures;
* `with.go` : `Driver.with`, `Driver.With`.

Go values of interface or pointer type that may be `nil` are `Option`s (`none` is `nil`),
state reached through a pointer is passed explicitly, and calls on external collaborators are
recorded in an event list so that "is called" can be counted.
-/

namespace Ydb

/-! ## internal/balancer/balancer.go -/

namespace balancer

/-- Modelled from the spec: the type `conn.State` (package `internal/conn`) is not among the
sources. The data model lists `State ∈ {Created, Online, Offline, Banned, Other}`; `Other`
carries a code so that every further state value is represented. -/
inductive State where
  | Created
  | Online
  | Offline
  | Banned
  | Other (code : Nat)
  deriving DecidableEq, Repr

/-- Modelled from the spec: the interface `conn.Conn` is not among the sources. The only
capability the balancer package uses is `GetState()`; the address is kept as an attribute. -/
structure Conn where
  address : String
  state : State
  deriving DecidableEq, Repr

/-- The method `GetState()` of a connection. -/
def Conn.GetState (c : Conn) : State := c.state

/-- `func IsOkConnection(c conn.Conn, bannedIsOk bool) bool`: a switch on `c.GetState()`. -/
def IsOkConnection (c : Conn) (bannedIsOk : Bool) : Bool :=
  match c.GetState with
  | .Online | .Created | .Offline => true
  | .Banned => bannedIsOk
  | _ => false

/-- `context.Context` values, identified by a number. -/
abbrev Context := Nat

/-- `type OnBadStateCallback func(ctx context.Context)`: a Go function value, possibly `nil`.
A non-nil callback acts on the surrounding state `σ`. -/
abbrev OnBadStateCallback (σ : Type) := Option (Context → σ → σ)

/-- `NextOptions struct { OnBadState OnBadStateCallback; AcceptBanned bool }`. -/
structure NextOptions (σ : Type) where
  OnBadState : OnBadStateCallback σ
  AcceptBanned : Bool

/-- `type NextOption func(o *NextOptions)`: the pointee before is mapped to the pointee after. -/
abbrev NextOption (σ : Type) := NextOptions σ → NextOptions σ

/-- The zero value produced by `var o NextOptions`. -/
def NextOptions.zero (σ : Type) : NextOptions σ :=
  { OnBadState := none, AcceptBanned := false }

/-- `func MakeNextOptions(opts ...NextOption) NextOptions`: starts from the zero value and
applies the options in order. -/
def MakeNextOptions {σ : Type} (opts : List (NextOption σ)) : NextOptions σ :=
  opts.foldl (fun o f => f o) (NextOptions.zero σ)

/-- `func WithAcceptBanned(val bool) NextOption`. -/
def WithAcceptBanned {σ : Type} (val : Bool) : NextOption σ :=
  fun o => { o with AcceptBanned := val }

/-- `func WithOnBadState(callback OnBadStateCallback) NextOption`. -/
def WithOnBadState {σ : Type} (callback : OnBadStateCallback σ) : NextOption σ :=
  fun o => { o with OnBadState := callback }

/-- Run-time failure of a Go program. -/
inductive GoPanic where
  | nilFuncCall
  deriving DecidableEq, Repr

/-- Calling a Go function value: a `nil` function value panics, any other runs once. -/
def callFunc {σ : Type} (fn : OnBadStateCallback σ) (ctx : Context) (s : σ) : Except GoPanic σ :=
  match fn with
  | none => .error .nilFuncCall
  | some g => .ok (g ctx s)

/-- `func (o *NextOptions) Discovery(ctx context.Context)`. -/
def NextOptions.Discovery {σ : Type} (o : NextOptions σ) (ctx : Context) (s : σ) :
    Except GoPanic σ :=
  if o.OnBadState.isSome then callFunc o.OnBadState ctx s else .ok s

/-- One entry of an option list built from the two constructors of the package. -/
inductive OptionCall (σ : Type) where
  | acceptBanned (val : Bool)
  | onBadState (callback : OnBadStateCallback σ)

/-- The `NextOption` an entry stands for. -/
def OptionCall.toOption {σ : Type} : OptionCall σ → NextOption σ
  | .acceptBanned v => WithAcceptBanned v
  | .onBadState cb => WithOnBadState cb

/-- The arguments of the `WithAcceptBanned` entries of a list, in order. -/
def acceptBannedArgs {σ : Type} (cs : List (OptionCall σ)) : List Bool :=
  cs.filterMap (fun c => match c with
    | .acceptBanned v => some v
    | .onBadState _ => none)

/-- The callbacks of the `WithOnBadState` entries of a list, in order. -/
def onBadStateArgs {σ : Type} (cs : List (OptionCall σ)) : List (OnBadStateCallback σ) :=
  cs.filterMap (fun c => match c with
    | .acceptBanned _ => none
    | .onBadState cb => some cb)

/-- The argument of the last `WithAcceptBanned` in the list, `false` if there is none. -/
def lastAcceptBanned {σ : Type} (cs : List (OptionCall σ)) : Bool :=
  (acceptBannedArgs cs).getLast?.getD false

/-- The callback of the last `WithOnBadState` in the list, `nil` if there is none. -/
def lastOnBadState {σ : Type} (cs : List (OptionCall σ)) : OnBadStateCallback σ :=
  (onBadStateArgs cs).getLast?.getD none

/-- A callback that records the context it was invoked with. -/
def recordCall : Context → List Context → List Context :=
  fun ctx log => log ++ [ctx]

end balancer

/-! ## retry/sql.go -/

namespace retry

/-- Go `error` values that are not `nil`. `base` is an error produced by a collaborator;
`errorf pfx e` is `fmt.Errorf(pfx + "%w", e)`; `withStackTrace e` is
`xerrors.WithStackTrace(e)` and `withIssues reason issues` is
`xerrors.NewWithIssues(reason, issues...)`, both applied to non-nil errors (package
`internal/xerrors` is not among the sources, its two constructors are kept symbolic). -/
inductive Err where
  | base (msg : String)
  | errBadConn
  | errorf (pfx : String) (e : Err)
  | withStackTrace (e : Err)
  | withIssues (reason : String) (issues : List Err)

/-- A Go `error`: `none` is `nil`. -/
abbrev GoError := Option Err

mutual
/-- Whether `driver.ErrBadConn` occurs in the chain of an error. -/
def Err.isBadConn : Err → Bool
  | .base _ => false
  | .errBadConn => true
  | .errorf _ e => e.isBadConn
  | .withStackTrace e => e.isBadConn
  | .withIssues _ issues => Err.anyBadConn issues
/-- Whether `driver.ErrBadConn` occurs in the chain of one of the errors. -/
def Err.anyBadConn : List Err → Bool
  | [] => false
  | e :: rest => e.isBadConn || Err.anyBadConn rest
end

/-- Modelled from the spec: `unwrapErrBadConn` is used by `Do` and `DoTx` and is not among the
sources. The error classifier says a broken transactional resource is "unwrapped to a canonical
bad connection signal" and everything else is propagated unchanged. The theorems on which calls
an attempt makes take the helper as an argument of type `Err → Err` and hold for every such
helper; the theorems on what the returned error holds are about this one. -/
def unwrapErrBadConnSpec (e : Err) : Err :=
  if e.isBadConn then .errBadConn else e

/-- The error `target` occurs in the chain of the error `e`, the way `errors.Is` walks it:
through `%w`, through a stack trace and through each issue of a combined error. -/
inductive Err.Wraps : Err → Err → Prop where
  | here (e : Err) : Err.Wraps e e
  | errorf (pfx : String) {e target : Err} : Err.Wraps e target → Err.Wraps (.errorf pfx e) target
  | withStackTrace {e target : Err} : Err.Wraps e target → Err.Wraps (.withStackTrace e) target
  | withIssues (reason : String) {issues : List Err} {e target : Err} :
      e ∈ issues → Err.Wraps e target → Err.Wraps (.withIssues reason issues) target

/-- A call made by an attempt on one of its collaborators. -/
inductive Event where
  | Conn
  | Close
  | BeginTx
  | F
  | Commit
  | Rollback
  deriving DecidableEq, Repr

/-- What the collaborators of one attempt of `Do` return if they are called. Every call
returns, with `nil` or with an error. -/
structure ConnOutcomes where
  Conn : GoError
  f : GoError
  Close : GoError

/-- What the collaborators of one attempt of `DoTx` return if they are called. Every call
returns, with `nil` or with an error; an attempt in which a call panics is not described by
these outcomes. -/
structure TxOutcomes where
  BeginTx : GoError
  f : GoError
  Commit : GoError
  Rollback : GoError

/-- The attempt closure of `Do` after `attempts++`: the returned error and the calls made.
`cc.Close()` is deferred and its error is discarded. -/
def doAttempt (unwrapErrBadConn : Err → Err) (o : ConnOutcomes) : GoError × List Event :=
  match o.Conn with
  | some err => (some (unwrapErrBadConn (.withStackTrace err)), [.Conn])
  | none =>
    match o.f with
    | some err => (some (unwrapErrBadConn (.withStackTrace err)), [.Conn, .F, .Close])
    | none => (none, [.Conn, .F, .Close])

/-- The statements of the attempt closure of `DoTx` that follow the `defer`: the value the
`return` statement assigns to the named result `err`, and the calls made. -/
def txBody (unwrapErrBadConn : Err → Err) (o : TxOutcomes) : GoError × List Event :=
  match o.f with
  | some err => (some (unwrapErrBadConn (.withStackTrace err)), [.F])
  | none =>
    match o.Commit with
    | some err => (some (unwrapErrBadConn (.withStackTrace err)), [.F, .Commit])
    | none => (none, [.F, .Commit])

/-- The deferred function of the attempt closure of `DoTx`: it reads the named result `err`
and may replace it. -/
def txDeferred (o : TxOutcomes) (err : GoError) : GoError × List Event :=
  match err with
  | some e =>
    match o.Rollback with
    | some errRollback =>
      (some (.withIssues "" [.withStackTrace e, .withStackTrace errRollback]), [.Rollback])
    | none => (some (.withStackTrace e), [.Rollback])
  | none => (none, [])

/-- The attempt closure of `DoTx` after `attempts++`: the error handed back to the retry
engine and the calls made, in order. A failed `BeginTx` returns before the `defer`. -/
def txAttempt (unwrapErrBadConn : Err → Err) (o : TxOutcomes) : GoError × List Event :=
  match o.BeginTx with
  | some err => (some (unwrapErrBadConn (.withStackTrace err)), [.BeginTx])
  | none =>
    let body := txBody unwrapErrBadConn o
    let deferred := txDeferred o body.1
    (deferred.1, .BeginTx :: (body.2 ++ deferred.2))

/-- Number of calls of tx.Rollback in an event list. -/
def rollbackCalls (evs : List Event) : Nat := evs.count .Rollback

/-- Number of calls of tx.Commit in an event list. -/
def commitCalls (evs : List Event) : Nat := evs.count .Commit

/-- Exactly one of `tx.Rollback` and `tx.Commit` is called: not both and not neither. -/
def exactlyOneOfRollbackCommit (evs : List Event) : Prop :=
  (Event.Rollback ∈ evs ∧ Event.Commit ∉ evs) ∨ (Event.Rollback ∉ evs ∧ Event.Commit ∈ evs)

/-- The function `Retry` is not among the sources and is taken as an argument: for one call,
a retry engine is a strategy that either returns an error (possibly `nil`) or invokes the
operation and goes on according to what the operation returned. -/
inductive Engine where
  | ret (err : GoError)
  | invoke (next : GoError → Engine)

/-- Runs an engine against an operation acting on a state: the error the engine returns, the
final state, and the number of times the engine invoked the operation. -/
def Engine.run {σ : Type} : Engine → (σ → GoError × σ) → σ → GoError × σ × Nat
  | .ret err, _, s => (err, s, 0)
  | .invoke next, op, s =>
    let r := op s
    let rest := (next r.1).run op r.2
    (rest.1, rest.2.1, rest.2.2 + 1)

/-- The variables an attempt closure captures and the environment it acts on: the counter
`attempts`, the outcomes of the collaborators in the coming invocations, the calls made so
far. The counter is a Go `int`; it is a natural number here, a run never reaches `2^63`
invocations. -/
structure RunState (O : Type) where
  attempts : Nat
  world : Nat → O
  trace : List Event

/-- The state at the start of `Do` and `DoTx`: `attempts = 0`. -/
def RunState.init {O : Type} (world : Nat → O) : RunState O :=
  { attempts := 0, world := world, trace := [] }

/-- One invocation of an attempt closure: `attempts++`, then the body on the outcomes of this
invocation. -/
def invokeAttempt {O : Type} (attempt : O → GoError × List Event) (st : RunState O) :
    GoError × RunState O :=
  let st1 : RunState O := { st with attempts := st.attempts + 1 }
  let r := attempt (st1.world 0)
  (r.1, { st1 with world := fun n => st1.world (n + 1), trace := st1.trace ++ r.2 })

/-- The run of `Retry` inside `Do`. -/
def doRun (Retry : Engine) (unwrapErrBadConn : Err → Err) (world : Nat → ConnOutcomes) :
    GoError × RunState ConnOutcomes × Nat :=
  Retry.run (invokeAttempt (doAttempt unwrapErrBadConn)) (RunState.init world)

/-- The run of `Retry` inside `DoTx`. -/
def doTxRun (Retry : Engine) (unwrapErrBadConn : Err → Err) (world : Nat → TxOutcomes) :
    GoError × RunState TxOutcomes × Nat :=
  Retry.run (invokeAttempt (txAttempt unwrapErrBadConn)) (RunState.init world)

/-- `func Do(ctx, db, f, opts...) error`. -/
def Do (Retry : Engine) (unwrapErrBadConn : Err → Err) (world : Nat → ConnOutcomes) : GoError :=
  let r := doRun Retry unwrapErrBadConn world
  match r.1 with
  | some err =>
    some (.withStackTrace
      (.errorf ("operation failed with " ++ toString r.2.1.attempts ++ " attempts: ") err))
  | none => none

/-- `func DoTx(ctx, db, f, opts...) error`. -/
def DoTx (Retry : Engine) (unwrapErrBadConn : Err → Err) (world : Nat → TxOutcomes) : GoError :=
  let r := doTxRun Retry unwrapErrBadConn world
  match r.1 with
  | some err =>
    some (.withStackTrace
      (.errorf ("tx operation failed with " ++ toString r.2.1.attempts ++ " attempts: ") err))
  | none => none

/-- An engine with an attempt cap of three that retries every failure: it stops at the first
success and otherwise returns the error of the third attempt. -/
def threeAttempts : Engine :=
  .invoke fun r1 => match r1 with
    | none => .ret none
    | some _ => .invoke fun r2 => match r2 with
      | none => .ret none
      | some _ => .invoke fun r3 => .ret r3

/-- Outcomes of an attempt of `DoTx` in which the transaction begins, `f` fails and the
rollback fails too. -/
def fAndRollbackFail : TxOutcomes :=
  { BeginTx := none, f := some (.base "constraint violated"), Commit := none,
    Rollback := some (.base "rollback: connection reset") }

/-- Outcomes of an attempt of `DoTx` in which `f` fails with an error that wraps
`driver.ErrBadConn` and the rollback fails too. -/
def fBadConnAndRollbackFail : TxOutcomes :=
  { BeginTx := none, f := some (.errorf "session closed: " .errBadConn), Commit := none,
    Rollback := some (.base "rollback: connection reset") }

/-- Outcomes of an attempt of `DoTx` in which `BeginTx` fails. -/
def beginFails : TxOutcomes :=
  { BeginTx := some (.base "no session"), f := none, Commit := none, Rollback := none }

/-- Outcomes of an attempt of `DoTx` in which only `Commit` fails. -/
def commitFails : TxOutcomes :=
  { BeginTx := none, f := none, Commit := some (.base "commit: aborted"), Rollback := none }

/-- Outcomes of an attempt of `DoTx` in which every call succeeds. -/
def allSucceed : TxOutcomes :=
  { BeginTx := none, f := none, Commit := none, Rollback := none }

/-- An environment in which the function `f` fails with the same error in every attempt of
`DoTx`. -/
def txAlwaysOverloaded : Nat → TxOutcomes :=
  fun _ => { BeginTx := none, f := some (.base "overloaded"), Commit := none, Rollback := none }

/-- An environment in which the function `f` fails with the same error in every attempt of
`Do`. -/
def connAlwaysOverloaded : Nat → ConnOutcomes :=
  fun _ => { Conn := none, f := some (.base "overloaded"), Close := none }

end retry

/-! ## with.go -/

namespace driver

/-- A `*Driver` pointer, identified by a number. -/
abbrev DriverRef := Nat

/-- The map `c.children` of type `map[uint64]*Driver`: the entry stored under each key. -/
abbrev Registry := Nat → Option DriverRef

/-- The Go statement `m[key] = value` on a map. -/
def Registry.set (m : Registry) (key : Nat) (value : DriverRef) : Registry :=
  fun k => if k = key then some value else m k

/-- The Go builtin `delete(m, key)` on a map. -/
def Registry.delete (m : Registry) (key : Nat) : Registry :=
  fun k => if k = key then none else m k

/-- The options `Driver.with` passes on. The constructors `WithBalancer`, `withOnClose` and
`withConnPool` are not among the sources and are kept symbolic; a close hook is the change it
makes to the registry of the parent (its `*Driver` argument is unused). -/
inductive Option_ where
  | WithBalancer (balancer : Nat)
  | withOnClose (hook : Registry → Registry)
  | withConnPool (pool : Nat)
  | other (tag : Nat)

/-- The fields of `Driver` that `with.go` reads or writes. -/
structure Driver where
  opts : List Option_
  balancer : Nat
  pool : Nat
  children : Registry

/-- `nextID.Add(1)` on the package variable `nextID xatomic.Uint64`: the new value, which is
also the value returned. -/
def nextIDAdd (nextID : Nat) (delta : Nat) : Nat := (nextID + delta) % 2 ^ 64

/-- The closure `func(child *Driver) { ...; delete(c.children, id) }` registered by
`Driver.with`, as a change of `c.children`. -/
def onCloseHook (id : Nat) : Registry → Registry :=
  fun children => children.delete id

/-- The option list `Driver.with` builds for `newConnectionFromOptions`. -/
def withOptions (c : Driver) (id : Nat) (opts : List Option_) : List Option_ :=
  (c.opts ++ [.WithBalancer c.balancer, .withOnClose (onCloseHook id), .withConnPool c.pool])
    ++ opts

/-- `func (c *Driver) with(ctx, opts...) (*Driver, uint64, error)`; the second component is
the new value of `nextID`. The function `newConnectionFromOptions` is not among the sources and
is an argument. -/
def Driver.with_ (newConnectionFromOptions : List Option_ → Except retry.Err DriverRef)
    (nextID : Nat) (c : Driver) (opts : List Option_) :
    Except retry.Err (DriverRef × Nat) × Nat :=
  let id := nextIDAdd nextID 1
  match newConnectionFromOptions (withOptions c id opts) with
  | .error err => (.error (.withStackTrace err), id)
  | .ok child => (.ok (child, id), id)

/-- `func (c *Driver) With(ctx, opts...) (*Driver, error)`: the result, the parent afterwards
and the new value of `nextID`. The function `connect` is not among the sources and is an
argument. -/
def Driver.With (newConnectionFromOptions : List Option_ → Except retry.Err DriverRef)
    (connect : DriverRef → retry.GoError) (nextID : Nat) (c : Driver) (opts : List Option_) :
    Except retry.Err DriverRef × Driver × Nat :=
  match Driver.with_ newConnectionFromOptions nextID c opts with
  | (.error err, n) => (.error (.withStackTrace err), c, n)
  | (.ok (child, id), n) =>
    match connect child with
    | some err => (.error (.withStackTrace err), c, n)
    | none => (.ok child, { c with children := c.children.set id child }, n)

/-- A parent driver with two registered children. -/
def sampleParent : Driver :=
  { opts := [.other 0], balancer := 1, pool := 2,
    children := fun k => if k = 40 then some 400 else if k = 41 then some 410 else none }

end driver

end Ydb

/-! ## Properties of the connection health predicate and of the next-options -/

namespace Ydb.balancer

/-- C1: a connection whose state is Online, Created or Offline is accepted by `IsOkConnection`
for both values of `bannedIsOk`. -/
theorem isOkConnection_of_online_created_offline (c : Conn) (bannedIsOk : Bool)
    (h : c.GetState = .Online ∨ c.GetState = .Created ∨ c.GetState = .Offline) :
    IsOkConnection c bannedIsOk = true := by
  unfold IsOkConnection
  rcases h with h | h | h <;> rw [h]

/-- Evaluation of C1 on an offline connection with `bannedIsOk = false`. -/
theorem isOkConnection_of_online_created_offline_witness :
    IsOkConnection { address := "node-3:2135", state := .Offline } false = true :=
  isOkConnection_of_online_created_offline { address := "node-3:2135", state := .Offline } false
    (Or.inr (Or.inr rfl))

/-- C2: for a connection whose state is Banned, `IsOkConnection c false = false`,
`IsOkConnection c true = true`, and in general the result is the argument `bannedIsOk`. -/
theorem isOkConnection_of_banned (c : Conn) (h : c.GetState = .Banned) :
    IsOkConnection c false = false ∧ IsOkConnection c true = true ∧
      ∀ bannedIsOk, IsOkConnection c bannedIsOk = bannedIsOk := by
  unfold IsOkConnection
  rw [h]
  exact ⟨rfl, rfl, fun _ => rfl⟩

/-- Evaluation of C2 on a banned connection. -/
theorem isOkConnection_of_banned_witness :
    IsOkConnection { address := "node-2:2135", state := .Banned } false = false ∧
      IsOkConnection { address := "node-2:2135", state := .Banned } true = true :=
  have h := isOkConnection_of_banned { address := "node-2:2135", state := .Banned } rfl
  ⟨h.1, h.2.1⟩

/-- C3: a connection whose state is none of Online, Created, Offline, Banned is rejected by
`IsOkConnection` for both values of `bannedIsOk`. -/
theorem isOkConnection_of_unrecognized (c : Conn) (bannedIsOk : Bool)
    (h : c.GetState ≠ .Online ∧ c.GetState ≠ .Created ∧ c.GetState ≠ .Offline ∧
      c.GetState ≠ .Banned) :
    IsOkConnection c bannedIsOk = false := by
  obtain ⟨h1, h2, h3, h4⟩ := h
  unfold IsOkConnection
  cases hs : c.GetState with
  | Created => exact absurd hs h2
  | Online => exact absurd hs h1
  | Offline => exact absurd hs h3
  | Banned => exact absurd hs h4
  | Other code => rfl

/-- Evaluation of C3 on a connection in a state outside the four named ones, with
`bannedIsOk = true`. -/
theorem isOkConnection_of_unrecognized_witness :
    IsOkConnection { address := "node-5:2135", state := .Other 5 } true = false :=
  isOkConnection_of_unrecognized { address := "node-5:2135", state := .Other 5 } true
    (by decide)

/-- Appending `WithAcceptBanned v` to an option list sets `AcceptBanned` and keeps
`OnBadState`. -/
theorem makeNextOptions_append_acceptBanned {σ : Type} (opts : List (NextOption σ)) (v : Bool) :
    MakeNextOptions (opts ++ [WithAcceptBanned v]) =
      { OnBadState := (MakeNextOptions opts).OnBadState, AcceptBanned := v } := by
  simp [MakeNextOptions, WithAcceptBanned, List.foldl_append]

/-- Appending `WithOnBadState cb` to an option list sets `OnBadState` and keeps
`AcceptBanned`. -/
theorem makeNextOptions_append_onBadState {σ : Type} (opts : List (NextOption σ))
    (cb : OnBadStateCallback σ) :
    MakeNextOptions (opts ++ [WithOnBadState cb]) =
      { OnBadState := cb, AcceptBanned := (MakeNextOptions opts).AcceptBanned } := by
  simp [MakeNextOptions, WithOnBadState, List.foldl_append]

/-- The fields of the options made from a list of constructor calls are the last arguments. -/
theorem makeNextOptions_fields {σ : Type} (cs : List (OptionCall σ)) :
    MakeNextOptions (cs.map OptionCall.toOption) =
      { OnBadState := lastOnBadState cs, AcceptBanned := lastAcceptBanned cs } := by
  induction cs using List.reverseRecOn with
  | nil => rfl
  | append_singleton cs c ih =>
    rw [List.map_append, List.map_singleton]
    cases c with
    | acceptBanned v =>
      rw [OptionCall.toOption, makeNextOptions_append_acceptBanned, ih]
      simp [lastOnBadState, lastAcceptBanned, onBadStateArgs, acceptBannedArgs,
        List.filterMap_append]
    | onBadState cb =>
      rw [OptionCall.toOption, makeNextOptions_append_onBadState, ih]
      simp [lastOnBadState, lastAcceptBanned, onBadStateArgs, acceptBannedArgs,
        List.filterMap_append]

/-- C7: for a list of options built from `WithAcceptBanned` and `WithOnBadState`,
`MakeNextOptions` returns the options whose `AcceptBanned` is the argument of the last
`WithAcceptBanned` (false if there is none) and whose `OnBadState` is the callback of the last
`WithOnBadState` (nil if there is none); a further option overrides its own field and leaves
the other one as it was. -/
theorem makeNextOptions_last_wins {σ : Type} (cs : List (OptionCall σ)) :
    MakeNextOptions (cs.map OptionCall.toOption) =
        { OnBadState := lastOnBadState cs, AcceptBanned := lastAcceptBanned cs } ∧
      lastAcceptBanned ([] : List (OptionCall σ)) = false ∧
      lastOnBadState ([] : List (OptionCall σ)) = none ∧
      (∀ v, MakeNextOptions ((cs ++ [OptionCall.acceptBanned v]).map OptionCall.toOption) =
        { OnBadState := lastOnBadState cs, AcceptBanned := v }) ∧
      (∀ cb, MakeNextOptions ((cs ++ [OptionCall.onBadState cb]).map OptionCall.toOption) =
        { OnBadState := cb, AcceptBanned := lastAcceptBanned cs }) := by
  refine ⟨makeNextOptions_fields cs, rfl, rfl, fun v => ?_, fun cb => ?_⟩
  · rw [List.map_append, List.map_singleton]
    show MakeNextOptions (cs.map OptionCall.toOption ++ [WithAcceptBanned v]) = _
    rw [makeNextOptions_append_acceptBanned, makeNextOptions_fields]
  · rw [List.map_append, List.map_singleton]
    show MakeNextOptions (cs.map OptionCall.toOption ++ [WithOnBadState cb]) = _
    rw [makeNextOptions_append_onBadState, makeNextOptions_fields]

/-- C9: `Discovery` on options with a callback returns normally in the state the callback
produces from one application to the given context, so the callback runs exactly once with that
context (a recording callback gains exactly that one entry); on options with a nil callback it
returns normally and leaves the state as it was. -/
theorem discovery_invokes_callback_once {σ : Type} (acceptBanned : Bool) (ctx : Context) :
    (∀ (cb : Context → σ → σ) (s : σ),
      NextOptions.Discovery { OnBadState := some cb, AcceptBanned := acceptBanned } ctx s
        = .ok (cb ctx s)) ∧
    (∀ log : List Context,
      NextOptions.Discovery { OnBadState := some recordCall, AcceptBanned := acceptBanned }
        ctx log = .ok (log ++ [ctx])) ∧
    (∀ s : σ,
      NextOptions.Discovery { OnBadState := none, AcceptBanned := acceptBanned } ctx s
        = .ok s) :=
  ⟨fun _ _ => rfl, fun _ => rfl, fun _ => rfl⟩

end Ydb.balancer

/-! ## Properties of the sql retry adapters -/

namespace Ydb.retry

/-- The counter `attempts` grows by the number of invocations the engine makes. -/
theorem run_attempts {O : Type} (attempt : O → GoError × List Event) (Retry : Engine)
    (st : RunState O) :
    (Retry.run (invokeAttempt attempt) st).2.1.attempts
      = st.attempts + (Retry.run (invokeAttempt attempt) st).2.2 := by
  induction Retry generalizing st with
  | ret err => simp [Engine.run]
  | invoke next ih =>
    simp only [Engine.run]
    rw [ih]
    simp only [invokeAttempt]
    omega

/-- Occurrence in the chain of an error is transitive. -/
theorem Err.Wraps.trans {a b c : Err} (hab : Err.Wraps a b) (hbc : Err.Wraps b c) :
    Err.Wraps a c := by
  induction hab with
  | here e => exact hbc
  | errorf pfx _ ih => exact .errorf pfx (ih hbc)
  | withStackTrace _ ih => exact .withStackTrace (ih hbc)
  | withIssues reason hmem _ ih => exact .withIssues reason hmem (ih hbc)

/-- A stack trace does not change whether an error is a bad connection. -/
theorem isBadConn_withStackTrace (e : Err) : (Err.withStackTrace e).isBadConn = e.isBadConn := by
  simp [Err.isBadConn]

/-- C4 as stated fails: when `f` fails with an error that wraps `driver.ErrBadConn` and the
rollback fails too, the combined error of the attempt holds the canonical bad connection error
and the rollback error, and the error of `f` is not in its chain. -/
theorem txAttempt_combined_drops_f_error :
    (txAttempt unwrapErrBadConnSpec fBadConnAndRollbackFail).1
        = some (.withIssues ""
            [.withStackTrace .errBadConn,
             .withStackTrace (.base "rollback: connection reset")]) ∧
      ¬ (Err.withIssues ""
            [.withStackTrace .errBadConn,
             .withStackTrace (.base "rollback: connection reset")]).Wraps
          (.errorf "session closed: " .errBadConn) := by
  refine ⟨rfl, ?_⟩
  intro h
  cases h with
  | withIssues _ hmem hw =>
    simp only [List.mem_cons, List.mem_singleton, List.not_mem_nil, or_false] at hmem
    rcases hmem with rfl | rfl
    · cases hw with
      | withStackTrace h2 => cases h2
    · cases hw with
      | withStackTrace h2 => cases h2

/-- C4 amended: in an attempt of `DoTx` in which the transaction was begun and `f` returns an
error, `tx.Rollback` is called exactly once, as the last call of the attempt and so before the
error is handed back to the retry engine, and `tx.Commit` is not called; if the rollback
succeeds the error of the attempt is built from the error of `f` alone, and if the rollback
fails it is the combined error with two issues, which has the error of the rollback in its
chain and, for the error of `f`, what `unwrapErrBadConn` hands on: the error of `f` itself
when it is not a bad connection error, the canonical bad connection error in its place when
it is. -/
theorem txAttempt_f_error_rolls_back (o : TxOutcomes) (errF : Err)
    (hBegin : o.BeginTx = none) (hF : o.f = some errF) :
    rollbackCalls (txAttempt unwrapErrBadConnSpec o).2 = 1 ∧
      (txAttempt unwrapErrBadConnSpec o).2.getLast? = some .Rollback ∧
      commitCalls (txAttempt unwrapErrBadConnSpec o).2 = 0 ∧
      (o.Rollback = none →
        (txAttempt unwrapErrBadConnSpec o).1
          = some (.withStackTrace (unwrapErrBadConnSpec (.withStackTrace errF)))) ∧
      (∀ errRollback, o.Rollback = some errRollback →
        ∃ combined, (txAttempt unwrapErrBadConnSpec o).1 = some combined ∧
          combined = .withIssues ""
              [.withStackTrace (unwrapErrBadConnSpec (.withStackTrace errF)),
               .withStackTrace errRollback] ∧
          combined.Wraps errRollback ∧
          (errF.isBadConn = false →
            unwrapErrBadConnSpec (.withStackTrace errF) = .withStackTrace errF ∧
              combined.Wraps errF) ∧
          (errF.isBadConn = true →
            unwrapErrBadConnSpec (.withStackTrace errF) = .errBadConn ∧
              combined.Wraps .errBadConn)) := by
  refine ⟨?_, ?_, ?_, ?_, ?_⟩
  · cases hR : o.Rollback <;>
      simp [txAttempt, txBody, txDeferred, rollbackCalls, hBegin, hF, hR]
  · cases hR : o.Rollback <;>
      simp [txAttempt, txBody, txDeferred, hBegin, hF, hR]
  · cases hR : o.Rollback <;>
      simp [txAttempt, txBody, txDeferred, commitCalls, hBegin, hF, hR]
  · intro hR
    simp [txAttempt, txBody, txDeferred, hBegin, hF, hR]
  · intro errRollback hR
    have hIssueF : (Err.withIssues ""
        [.withStackTrace (unwrapErrBadConnSpec (.withStackTrace errF)),
         .withStackTrace errRollback]).Wraps (unwrapErrBadConnSpec (.withStackTrace errF)) :=
      .withIssues "" (List.mem_cons_self _ _) (.withStackTrace (.here _))
    refine ⟨_, ?_, rfl, ?_, ?_, ?_⟩
    · simp [txAttempt, txBody, txDeferred, hBegin, hF, hR]
    · exact .withIssues "" (List.mem_cons_of_mem _ (List.mem_cons_self _ _))
        (.withStackTrace (.here _))
    · intro hb
      have hu : unwrapErrBadConnSpec (.withStackTrace errF) = .withStackTrace errF := by
        simp [unwrapErrBadConnSpec, isBadConn_withStackTrace, hb]
      refine ⟨hu, hIssueF.trans ?_⟩
      rw [hu]
      exact .withStackTrace (.here _)
    · intro hb
      have hu : unwrapErrBadConnSpec (.withStackTrace errF) = .errBadConn := by
        simp [unwrapErrBadConnSpec, isBadConn_withStackTrace, hb]
      refine ⟨hu, ?_⟩
      rw [← hu]
      exact hIssueF

/-- Evaluation of the amended C4 where `f` and the rollback both fail and the error of `f` is
not a bad connection: one rollback, and the combined error has the error of `f` and the error
of the rollback in its chain. -/
theorem txAttempt_f_error_rolls_back_witness :
    rollbackCalls (txAttempt unwrapErrBadConnSpec fAndRollbackFail).2 = 1 ∧
      ∃ combined, (txAttempt unwrapErrBadConnSpec fAndRollbackFail).1 = some combined ∧
        combined = .withIssues ""
            [.withStackTrace (.withStackTrace (.base "constraint violated")),
             .withStackTrace (.base "rollback: connection reset")] ∧
        combined.Wraps (.base "rollback: connection reset") ∧
        combined.Wraps (.base "constraint violated") :=
  have h := txAttempt_f_error_rolls_back fAndRollbackFail (.base "constraint violated") rfl rfl
  have ⟨combined, h1, h2, h3, h4, _⟩ := h.2.2.2.2 (.base "rollback: connection reset") rfl
  ⟨h.1, combined, h1, h2, h3, (h4 rfl).2⟩

/-- C5 as stated fails: in an attempt in which `BeginTx` fails neither `tx.Rollback` nor
`tx.Commit` is called, and in an attempt in which `Commit` fails both are called. -/
theorem txAttempt_not_exactly_one :
    ¬ exactlyOneOfRollbackCommit (txAttempt unwrapErrBadConnSpec beginFails).2 ∧
      ¬ exactlyOneOfRollbackCommit (txAttempt unwrapErrBadConnSpec commitFails).2 := by
  constructor <;>
    simp [exactlyOneOfRollbackCommit, txAttempt, txBody, txDeferred, beginFails, commitFails]

/-- C5 amended: in an attempt of `DoTx` in which every call that is made returns, the calls
are `BeginTx` alone when `BeginTx` fails (neither rollback nor commit); `BeginTx, f, Rollback`
when `f` returns an error (rollback alone); `BeginTx, f, Commit` when `f` and `Commit` return
nil (commit alone); and `BeginTx, f, Commit, Rollback` when `Commit` fails (commit, then
rollback). So in such an attempt, after a successful `BeginTx` at least one of the two is
called, and exactly one unless `Commit` fails. An attempt in which `f` panics is outside this
statement. -/
theorem txAttempt_calls (unwrapErrBadConn : Err → Err) (o : TxOutcomes) :
    (o.BeginTx ≠ none → (txAttempt unwrapErrBadConn o).2 = [.BeginTx]) ∧
      (o.BeginTx = none → o.f ≠ none →
        (txAttempt unwrapErrBadConn o).2 = [.BeginTx, .F, .Rollback]) ∧
      (o.BeginTx = none → o.f = none → o.Commit = none →
        (txAttempt unwrapErrBadConn o).2 = [.BeginTx, .F, .Commit]) ∧
      (o.BeginTx = none → o.f = none → o.Commit ≠ none →
        (txAttempt unwrapErrBadConn o).2 = [.BeginTx, .F, .Commit, .Rollback]) ∧
      (o.BeginTx = none →
        (Event.Rollback ∈ (txAttempt unwrapErrBadConn o).2 ∨
          Event.Commit ∈ (txAttempt unwrapErrBadConn o).2)) ∧
      (o.BeginTx = none → (o.f ≠ none ∨ o.Commit = none) →
        exactlyOneOfRollbackCommit (txAttempt unwrapErrBadConn o).2) := by
  obtain ⟨b, f, c, r⟩ := o
  cases b <;> cases f <;> cases c <;> cases r <;>
    simp [txAttempt, txBody, txDeferred, exactlyOneOfRollbackCommit]

/-- Evaluation of the amended C5: the calls of an attempt in which only `Commit` fails, and of
one in which everything succeeds. -/
theorem txAttempt_calls_witness :
    (txAttempt unwrapErrBadConnSpec commitFails).2 = [.BeginTx, .F, .Commit, .Rollback] ∧
      exactlyOneOfRollbackCommit (txAttempt unwrapErrBadConnSpec allSucceed).2 :=
  ⟨(txAttempt_calls unwrapErrBadConnSpec commitFails).2.2.2.1 rfl rfl (by simp [commitFails]),
   (txAttempt_calls unwrapErrBadConnSpec allSucceed).2.2.2.2.2 rfl (Or.inr rfl)⟩

end Ydb.retry

namespace Ydb.retry

/-- The function `Do` returns nil when the engine returns nil, and otherwise the error of the
engine wrapped with the number of invocations. -/
theorem do_eq (Retry : Engine) (unwrapErrBadConn : Err → Err) (world : Nat → ConnOutcomes) :
    Do Retry unwrapErrBadConn world =
      match (doRun Retry unwrapErrBadConn world).1 with
      | some errRetry => some (.withStackTrace (.errorf
          ("operation failed with "
            ++ toString (doRun Retry unwrapErrBadConn world).2.2 ++ " attempts: ") errRetry))
      | none => none := by
  have hN : (doRun Retry unwrapErrBadConn world).2.1.attempts
      = (doRun Retry unwrapErrBadConn world).2.2 := by
    simp [doRun, run_attempts, RunState.init]
  unfold Do
  simp only [hN]

/-- The function `DoTx` returns nil when the engine returns nil, and otherwise the error of the
engine wrapped with the number of invocations. -/
theorem doTx_eq (Retry : Engine) (unwrapErrBadConn : Err → Err) (world : Nat → TxOutcomes) :
    DoTx Retry unwrapErrBadConn world =
      match (doTxRun Retry unwrapErrBadConn world).1 with
      | some errRetry => some (.withStackTrace (.errorf
          ("tx operation failed with "
            ++ toString (doTxRun Retry unwrapErrBadConn world).2.2 ++ " attempts: ") errRetry))
      | none => none := by
  have hN : (doTxRun Retry unwrapErrBadConn world).2.1.attempts
      = (doTxRun Retry unwrapErrBadConn world).2.2 := by
    simp [doTxRun, run_attempts, RunState.init]
  unfold DoTx
  simp only [hN]

/-- C6: `Do` (respectively `DoTx`) returns a non-nil error exactly when the retry engine
returns one, and that error is then the error of the engine wrapped with the message
"operation failed with N attempts: " (respectively "tx operation failed with N attempts: "),
stack-traced, where N is the number of times the engine invoked the attempt closure; when the
engine invokes it three times and then fails, the error returned reads "3 attempts". -/
theorem do_doTx_error_reports_attempts (Retry : Engine) (unwrapErrBadConn : Err → Err) :
    (∀ world errRetry, (doRun Retry unwrapErrBadConn world).1 = some errRetry →
      Do Retry unwrapErrBadConn world = some (.withStackTrace (.errorf
        ("operation failed with "
          ++ toString (doRun Retry unwrapErrBadConn world).2.2 ++ " attempts: ") errRetry))) ∧
    (∀ world errRetry, (doTxRun Retry unwrapErrBadConn world).1 = some errRetry →
      DoTx Retry unwrapErrBadConn world = some (.withStackTrace (.errorf
        ("tx operation failed with "
          ++ toString (doTxRun Retry unwrapErrBadConn world).2.2 ++ " attempts: ")
        errRetry))) ∧
    (∀ world e, Do Retry unwrapErrBadConn world = some e →
      ∃ errRetry, (doRun Retry unwrapErrBadConn world).1 = some errRetry ∧
        e = .withStackTrace (.errorf
          ("operation failed with "
            ++ toString (doRun Retry unwrapErrBadConn world).2.2 ++ " attempts: ") errRetry)) ∧
    (∀ world e, DoTx Retry unwrapErrBadConn world = some e →
      ∃ errRetry, (doTxRun Retry unwrapErrBadConn world).1 = some errRetry ∧
        e = .withStackTrace (.errorf
          ("tx operation failed with "
            ++ toString (doTxRun Retry unwrapErrBadConn world).2.2 ++ " attempts: ")
          errRetry)) ∧
    (∀ world errRetry, (doRun Retry unwrapErrBadConn world).2.2 = 3 →
      (doRun Retry unwrapErrBadConn world).1 = some errRetry →
      Do Retry unwrapErrBadConn world
        = some (.withStackTrace (.errorf "operation failed with 3 attempts: " errRetry))) ∧
    (∀ world errRetry, (doTxRun Retry unwrapErrBadConn world).2.2 = 3 →
      (doTxRun Retry unwrapErrBadConn world).1 = some errRetry →
      DoTx Retry unwrapErrBadConn world
        = some (.withStackTrace (.errorf "tx operation failed with 3 attempts: " errRetry))) := by
  refine ⟨?_, ?_, ?_, ?_, ?_, ?_⟩
  · intro world errRetry h
    rw [do_eq, h]
  · intro world errRetry h
    rw [doTx_eq, h]
  · intro world e h
    rw [do_eq] at h
    cases hr : (doRun Retry unwrapErrBadConn world).1 with
    | none => simp [hr] at h
    | some errRetry =>
      simp only [hr, Option.some.injEq] at h
      exact ⟨errRetry, rfl, h.symm⟩
  · intro world e h
    rw [doTx_eq] at h
    cases hr : (doTxRun Retry unwrapErrBadConn world).1 with
    | none => simp [hr] at h
    | some errRetry =>
      simp only [hr, Option.some.injEq] at h
      exact ⟨errRetry, rfl, h.symm⟩
  · intro world errRetry h3 h
    rw [do_eq, h, h3]
    rfl
  · intro world errRetry h3 h
    rw [doTx_eq, h, h3]
    rfl

/-- Evaluation of C6 with an engine capped at three attempts and a function that always fails:
the engine invokes the closure three times and fails, and `Do` and `DoTx` return the errors
reading "operation failed with 3 attempts: " and "tx operation failed with 3 attempts: ". -/
theorem do_doTx_error_reports_attempts_witness :
    (doRun threeAttempts unwrapErrBadConnSpec connAlwaysOverloaded).2.2 = 3 ∧
      (doTxRun threeAttempts unwrapErrBadConnSpec txAlwaysOverloaded).2.2 = 3 ∧
      Do threeAttempts unwrapErrBadConnSpec connAlwaysOverloaded
        = some (.withStackTrace (.errorf "operation failed with 3 attempts: "
            (.withStackTrace (.base "overloaded")))) ∧
      DoTx threeAttempts unwrapErrBadConnSpec txAlwaysOverloaded
        = some (.withStackTrace (.errorf "tx operation failed with 3 attempts: "
            (.withStackTrace (.withStackTrace (.base "overloaded"))))) :=
  have h := do_doTx_error_reports_attempts threeAttempts unwrapErrBadConnSpec
  ⟨rfl, rfl,
    h.2.2.2.2.1 connAlwaysOverloaded _ rfl rfl,
    h.2.2.2.2.2 txAlwaysOverloaded _ rfl rfl⟩

/-- C8: in an attempt of `DoTx`, `tx.Commit` is called if and only if `BeginTx` succeeded and
`f` returned nil, and then once; the attempt returns nil if and only if `Commit` was called and
returned nil; and when `Commit` fails the attempt returns a non-nil error built from the error
of `Commit` (alone, or combined with the error of the rollback that follows). -/
theorem txAttempt_commit (unwrapErrBadConn : Err → Err) (o : TxOutcomes) :
    (Event.Commit ∈ (txAttempt unwrapErrBadConn o).2 ↔ (o.BeginTx = none ∧ o.f = none)) ∧
      commitCalls (txAttempt unwrapErrBadConn o).2 ≤ 1 ∧
      ((txAttempt unwrapErrBadConn o).1 = none ↔
        (Event.Commit ∈ (txAttempt unwrapErrBadConn o).2 ∧ o.Commit = none)) ∧
      (∀ errCommit, o.BeginTx = none → o.f = none → o.Commit = some errCommit →
        (txAttempt unwrapErrBadConn o).1 ≠ none ∧
        ((o.Rollback = none ∧ (txAttempt unwrapErrBadConn o).1
            = some (.withStackTrace (unwrapErrBadConn (.withStackTrace errCommit)))) ∨
          (∃ errRollback, o.Rollback = some errRollback ∧ (txAttempt unwrapErrBadConn o).1
            = some (.withIssues ""
                [.withStackTrace (unwrapErrBadConn (.withStackTrace errCommit)),
                 .withStackTrace errRollback])))) := by
  obtain ⟨b, f, c, r⟩ := o
  cases b <;> cases f <;> cases c <;> cases r <;>
    simp [txAttempt, txBody, txDeferred, commitCalls]

/-- Evaluation of C8 on an attempt in which only `Commit` fails: the attempt hands back a
non-nil error built from the error of `Commit`. -/
theorem txAttempt_commit_witness :
    (txAttempt unwrapErrBadConnSpec commitFails).1 ≠ none ∧
      ((commitFails.Rollback = none ∧ (txAttempt unwrapErrBadConnSpec commitFails).1
          = some (.withStackTrace
              (unwrapErrBadConnSpec (.withStackTrace (.base "commit: aborted"))))) ∨
        (∃ errRollback, commitFails.Rollback = some errRollback ∧
          (txAttempt unwrapErrBadConnSpec commitFails).1
            = some (.withIssues ""
                [.withStackTrace
                  (unwrapErrBadConnSpec (.withStackTrace (.base "commit: aborted"))),
                 .withStackTrace errRollback]))) :=
  (txAttempt_commit unwrapErrBadConnSpec commitFails).2.2.2 (.base "commit: aborted")
    rfl rfl rfl

end Ydb.retry

/-! ## Properties of the child registry -/

namespace Ydb.driver

/-- C10: after a successful `Driver.With` the registry of the parent maps the freshly issued id
(the new value of `nextID`) to the returned child, which is the driver built from the option
list holding the close hook for that id; the other entries of the registry are as before; and
whenever that close hook runs, on any later registry, the entry of that id is removed and every
other entry is unchanged. -/
theorem with_registers_child (newConnectionFromOptions : List Option_ → Except retry.Err DriverRef)
    (connect : DriverRef → retry.GoError) (nextID : Nat) (c : Driver) (opts : List Option_)
    (child : DriverRef) (c1 : Driver) (nextID1 : Nat)
    (h : Driver.With newConnectionFromOptions connect nextID c opts = (.ok child, c1, nextID1)) :
    nextID1 = nextIDAdd nextID 1 ∧
      c1.children nextID1 = some child ∧
      (∀ k, k ≠ nextID1 → c1.children k = c.children k) ∧
      newConnectionFromOptions (withOptions c nextID1 opts) = .ok child ∧
      Option_.withOnClose (onCloseHook nextID1) ∈ withOptions c nextID1 opts ∧
      (∀ later : Registry, onCloseHook nextID1 later nextID1 = none ∧
        ∀ k, k ≠ nextID1 → onCloseHook nextID1 later k = later k) := by
  unfold Driver.With Driver.with_ at h
  cases hn : newConnectionFromOptions (withOptions c (nextIDAdd nextID 1) opts) with
  | error err => simp [hn] at h
  | ok ch =>
    simp only [hn] at h
    cases hc : connect ch with
    | some err => simp [hc] at h
    | none =>
      simp only [hc, Prod.mk.injEq, Except.ok.injEq] at h
      obtain ⟨h1, h2, h3⟩ := h
      subst h1 h2 h3
      refine ⟨rfl, by simp [Registry.set], ?_, hn, by simp [withOptions], ?_⟩
      · intro k hk
        simp [Registry.set, hk]
      · intro later
        refine ⟨by simp [onCloseHook, Registry.delete], ?_⟩
        intro k hk
        simp [onCloseHook, Registry.delete, hk]

/-- Evaluation of C10 on a parent with children under the ids 40 and 41 when `nextID` is 41:
the child is stored under 42, and the close hook for 42 empties that entry and keeps 41. -/
theorem with_registers_child_witness :
    (Driver.With (fun _ => .ok 420) (fun _ => none) 41 sampleParent []).2.1.children 42
        = some 420 ∧
      onCloseHook 42
        (Driver.With (fun _ => .ok 420) (fun _ => none) 41 sampleParent []).2.1.children 42
        = none ∧
      onCloseHook 42
        (Driver.With (fun _ => .ok 420) (fun _ => none) 41 sampleParent []).2.1.children 41
        = some 410 :=
  have h := with_registers_child (fun _ => .ok 420) (fun _ => none) 41 sampleParent [] 420
    (Driver.With (fun _ => .ok 420) (fun _ => none) 41 sampleParent []).2.1 42 rfl
  ⟨h.2.1, (h.2.2.2.2.2 _).1, ((h.2.2.2.2.2 _).2 41 (by decide)).trans rfl⟩

end Ydb.driver
